import Mathlib

/-!
Shallow embedding of the ExpressLRS-Configurator orchestrator fragments under
verification:

* `src/api/src/graphql/objects/BuildFlashFirmwareResult.ts` — the terminal
  result record and its constructor.
* `src/main.dev.ts` — the PATH composition performed inside `createWindow`
  (the Environment Resolver of the spec), the local helper `prependPATH`,
  and the fatal-error handler `handleFatalError` installed on
  `uncaughtException` / `unhandledRejection`.

Machine strings are Lean `String`; the inherited process environment is a map
from variable names to optional values; TypeScript `undefined` on optional
fields is `Option.none`.
-/

/-- Modelled from the spec: the closed error enumeration
`BuildFirmwareErrorType` lives in `src/api/src/models/enum/BuildFirmwareErrorType`,
which is not part of the provided sources. The spec lists build-failure
categories (toolchain missing, dependency resolution failed, compilation
failed, unknown), flash-failure categories (device not found, permission
denied, protocol/timeout error, unknown) and a dedicated cancelled category. -/
inductive BuildFirmwareErrorType where
  | ToolchainMissing
  | DependencyResolutionFailed
  | CompilationFailed
  | UnknownBuildError
  | DeviceNotFound
  | FlashPermissionDenied
  | ProtocolTimeout
  | UnknownFlashError
  | Cancelled
deriving DecidableEq

/-- The `BuildFlashFirmwareResult` object type. Field declaration order in the
source is `success`, `errorType`, `message`, `firmwareBinPath`; the three
trailing fields are nullable (`Option`). -/
structure BuildFlashFirmwareResult where
  success : Bool
  errorType : Option BuildFirmwareErrorType
  message : Option String
  firmwareBinPath : Option String
deriving DecidableEq

/-- The TypeScript constructor of `BuildFlashFirmwareResult`. Its parameter
order is `(success, message, errorType, firmwareBinPath)` — note `message`
before `errorType`, the opposite of the field declaration order — and its body
assigns each parameter to the field of the same name:
`this.success = success; this.errorType = errorType; this.message = message;
this.firmwareBinPath = firmwareBinPath`. -/
def BuildFlashFirmwareResult.construct (success : Bool) (message : Option String)
    (errorType : Option BuildFirmwareErrorType)
    (firmwareBinPath : Option String) : BuildFlashFirmwareResult :=
  { success := success
    errorType := errorType
    message := message
    firmwareBinPath := firmwareBinPath }

/-- TypeScript `String.prototype.startsWith`, on which
`process.platform.startsWith(...)` relies: character-list prefix test. -/
def tsStartsWith (s prefixStr : String) : Bool :=
  prefixStr.data.isPrefixOf s.data

/-- `const isWindows = process.platform.startsWith('win')` from `main.dev.ts`,
as a function of the platform identifier. -/
def isWindows (platform : String) : Bool :=
  tsStartsWith platform "win"

/-- `const isMacOS = process.platform.startsWith('darwin')` from `main.dev.ts`,
as a function of the platform identifier. -/
def isMacOS (platform : String) : Bool :=
  tsStartsWith platform "darwin"

/-- Node `path.delimiter`: the PATH entry separator of the running platform,
a semicolon on Windows and a colon elsewhere. -/
def pathDelimiter (platform : String) : String :=
  if isWindows platform then ";" else ":"

/-- Node `path.sep`: backslash on Windows, forward slash elsewhere. -/
def pathSep (platform : String) : String :=
  if isWindows platform then "\\" else "/"

/-- Node `path.join` restricted to the two-segment uses in `main.dev.ts`,
modelled as separator insertion. Every use below joins a non-empty
dependencies root with a non-empty relative segment, where this agrees with
Node up to normalization of separators inside the segment, which no claim
observes. -/
def pathJoin (sep a b : String) : String :=
  a ++ sep ++ b

/-- `path.join(dependenciesPath, 'windows_amd64/python-portable-windows_amd64-3.7.7')`
from the Windows branch of `createWindow` (host separator is backslash there). -/
def winPythonLocation (dependenciesPath : String) : String :=
  pathJoin "\\" dependenciesPath "windows_amd64/python-portable-windows_amd64-3.7.7"

/-- `path.join(dependenciesPath, 'windows_amd64/PortableGit/bin')` from the
Windows branch of `createWindow`. -/
def winGitLocation (dependenciesPath : String) : String :=
  pathJoin "\\" dependenciesPath "windows_amd64/PortableGit/bin"

/-- `path.join(dependenciesPath, 'darwin_amd64/python-portable-darwin-3.8.4/bin')`
from the macOS branch of `createWindow` (host separator is forward slash). -/
def macPythonLocation (dependenciesPath : String) : String :=
  pathJoin "/" dependenciesPath "darwin_amd64/python-portable-darwin-3.8.4/bin"

/-- `path.join(dependenciesPath, 'darwin_amd64/git/2.30.1/bin')` from the
macOS branch of `createWindow`. -/
def macGitLocation (dependenciesPath : String) : String :=
  pathJoin "/" dependenciesPath "darwin_amd64/git/2.30.1/bin"

/-- The local helper from `createWindow`:
`(pth, item) => pth.length > 0 ? item + path.delimiter + pth : item`,
with `path.delimiter` passed explicitly. -/
def prependPATH (delimiter pth item : String) : String :=
  if pth.length > 0 then item ++ delimiter ++ pth else item

/-- The inherited process environment: variable name to optional value. -/
def ProcessEnv : Type :=
  String → Option String

/-- An environment whose PATH variable holds `p` and which binds nothing
else; used to instantiate theorems at concrete inputs. -/
def envWithPATH (p : String) : ProcessEnv :=
  fun v => if v = "PATH" then some p else none

/-- An environment with no PATH variable at all. -/
def envNoPATH : ProcessEnv :=
  fun _ => none

/-- An environment agreeing with `envWithPATH "/usr/bin"` on PATH but binding
every other variable, used to show that resolution reads only PATH. -/
def envBusy : ProcessEnv :=
  fun v => if v = "PATH" then some "/usr/bin" else some "1"

/-- The PATH composition of `createWindow` in `main.dev.ts` (the Environment
Resolver), as a function of the platform identifier, the dependencies root and
the inherited environment:

`let PATH = process.env.PATH ?? ''`, then, when the platform starts with
`win`, reassignment via `prependPATH` with the portable Python location and
then the portable Git location; then, when the platform starts with `darwin`,
the same two reassignments with the darwin locations. -/
def resolvePATH (platform dependenciesPath : String) (env : ProcessEnv) : String :=
  let PATH0 := (env "PATH").getD ""
  let PATH1 :=
    if isWindows platform then
      prependPATH (pathDelimiter platform)
        (prependPATH (pathDelimiter platform) PATH0 (winPythonLocation dependenciesPath))
        (winGitLocation dependenciesPath)
    else PATH0
  let PATH2 :=
    if isMacOS platform then
      prependPATH (pathDelimiter platform)
        (prependPATH (pathDelimiter platform) PATH1 (macPythonLocation dependenciesPath))
        (macGitLocation dependenciesPath)
    else PATH1
  PATH2

/-- How the promise returned by `dialog.showMessageBox` behaves inside
`handleFatalError`: it resolves, it rejects, or the call throws synchronously
(the `catch` block of the surrounding `try`). -/
inductive DialogOutcome where
  | resolved
  | rejected
  | threw
deriving DecidableEq

/-- Whether the orchestrating process is still running afterwards, or has
exited with a status code. -/
inductive ProcessStatus where
  | running
  | exited (code : Nat)
deriving DecidableEq

/-- `handleFatalError` from `main.dev.ts`, reduced to its effect on the
process: after logging, it shows an error dialog and in every branch calls
`process.exit(1)` — in the `.then` continuation when the dialog promise
resolves, in the `.catch` handler when it rejects, and in the `catch` block
after `dialog.showErrorBox` when `showMessageBox` throws synchronously. -/
def handleFatalError (dialog : DialogOutcome) : ProcessStatus :=
  match dialog with
  | DialogOutcome.resolved => ProcessStatus.exited 1
  | DialogOutcome.rejected => ProcessStatus.exited 1
  | DialogOutcome.threw => ProcessStatus.exited 1

lemma length_pos_of_ne_empty (s : String) (h : s ≠ "") : 0 < s.length := by
  cases s with
  | mk data =>
    cases data with
    | nil => exact absurd rfl h
    | cons c cs => simp [String.length]

lemma append_ne_empty_left (a b : String) (h : a ≠ "") : a ++ b ≠ "" := by
  intro he
  have hl : (a ++ b).length = 0 := by rw [he]; rfl
  rw [String.length_append] at hl
  have := length_pos_of_ne_empty a h
  omega

lemma pathJoin_ne_empty (sep a b : String) (h : b ≠ "") : pathJoin sep a b ≠ "" := by
  unfold pathJoin
  intro he
  have hl : (a ++ sep ++ b).length = 0 := by rw [he]; rfl
  rw [String.length_append, String.length_append] at hl
  have := length_pos_of_ne_empty b h
  omega

lemma winPythonLocation_ne_empty (d : String) : winPythonLocation d ≠ "" :=
  pathJoin_ne_empty _ _ _ (by decide)

lemma macPythonLocation_ne_empty (d : String) : macPythonLocation d ≠ "" :=
  pathJoin_ne_empty _ _ _ (by decide)

lemma prependPATH_of_ne_empty (delim pth item : String) (h : pth ≠ "") :
    prependPATH delim pth item = item ++ delim ++ pth := by
  unfold prependPATH
  rw [if_pos (length_pos_of_ne_empty pth h)]

lemma prependPATH_empty (delim item : String) :
    prependPATH delim "" item = item := rfl

lemma isMacOS_eq_false_of_isWindows (platform : String)
    (h : isWindows platform = true) : isMacOS platform = false := by
  unfold isWindows isMacOS tsStartsWith at *
  cases platform with
  | mk data =>
    cases data with
    | nil => simp [List.isPrefixOf] at h
    | cons c cs =>
      have hw : c = 'w' := by
        simp only [show ("win".data) = ['w', 'i', 'n'] from rfl,
          List.isPrefixOf, Bool.and_eq_true, beq_iff_eq] at h
        exact h.1.symm
      subst hw
      simp [show ("darwin".data) = ['d', 'a', 'r', 'w', 'i', 'n'] from rfl,
        List.isPrefixOf]

lemma isWindows_eq_false_of_isMacOS (platform : String)
    (h : isMacOS platform = true) : isWindows platform = false := by
  unfold isWindows isMacOS tsStartsWith at *
  cases platform with
  | mk data =>
    cases data with
    | nil => simp [List.isPrefixOf] at h
    | cons c cs =>
      have hd : c = 'd' := by
        simp only [show ("darwin".data) = ['d', 'a', 'r', 'w', 'i', 'n'] from rfl,
          List.isPrefixOf, Bool.and_eq_true, beq_iff_eq] at h
        exact h.1.symm
      subst hd
      simp [show ("win".data) = ['w', 'i', 'n'] from rfl, List.isPrefixOf]

/-- C1: the claim that every value built by the `BuildFlashFirmwareResult`
constructor satisfies `success = true ↔ errorType` absent is false: the
constructor accepts `success = true` together with a present `errorType` and
stores both unchanged. -/
theorem c1_counterexample :
    (BuildFlashFirmwareResult.construct true none
      (some BuildFirmwareErrorType.ToolchainMissing) none).success = true ∧
    (BuildFlashFirmwareResult.construct true none
      (some BuildFirmwareErrorType.ToolchainMissing) none).errorType ≠ none := by
  decide

/-- C1 (amended): the constructor does not enforce the invariant; a
constructed value satisfies `success = true ↔ errorType` absent exactly when
its `success` and `errorType` arguments already satisfy it. -/
theorem c1_success_iff_errorType_absent_of_args (s : Bool) (m : Option String)
    (e : Option BuildFirmwareErrorType) (f : Option String)
    (h : s = true ↔ e = none) :
    ((BuildFlashFirmwareResult.construct s m e f).success = true ↔
      (BuildFlashFirmwareResult.construct s m e f).errorType = none) := h

theorem c1_witness :
    (BuildFlashFirmwareResult.construct false none
        (some BuildFirmwareErrorType.CompilationFailed) none).success = true ↔
      (BuildFlashFirmwareResult.construct false none
        (some BuildFirmwareErrorType.CompilationFailed) none).errorType = none :=
  c1_success_iff_errorType_absent_of_args false none
    (some BuildFirmwareErrorType.CompilationFailed) none (by decide)

/-- C5: for every item and every non-empty existing PATH string, `prependPATH`
returns exactly the item, one platform delimiter, then the old PATH unchanged. -/
theorem c5_prependPATH_nonempty (delim pth item : String) (h : pth ≠ "") :
    prependPATH delim pth item = item ++ delim ++ pth := by
  unfold prependPATH
  rw [if_pos (length_pos_of_ne_empty pth h)]

theorem c5_witness :
    prependPATH ";" "C:\\sys" "C:\\py" = "C:\\py" ++ ";" ++ "C:\\sys" :=
  c5_prependPATH_nonempty ";" "C:\\sys" "C:\\py" (by decide)

/-- C6: `firmwareBinPath` is independent of the success flag: the constructor
preserves `success = false` together with a present `firmwareBinPath`. -/
theorem c6_firmwareBinPath_independent_of_success (m : Option String)
    (e : Option BuildFirmwareErrorType) (p : String) :
    (BuildFlashFirmwareResult.construct false m e (some p)).success = false ∧
    (BuildFlashFirmwareResult.construct false m e (some p)).firmwareBinPath = some p :=
  ⟨rfl, rfl⟩

/-- C8: the constructor assigns each argument to the field of the same name,
despite the parameter order (success, message, errorType, firmwareBinPath)
differing from the field declaration order (success, errorType, message,
firmwareBinPath). -/
theorem c8_constructor_assigns_same_named_fields (s : Bool) (m : Option String)
    (e : Option BuildFirmwareErrorType) (f : Option String) :
    (BuildFlashFirmwareResult.construct s m e f).success = s ∧
    (BuildFlashFirmwareResult.construct s m e f).message = m ∧
    (BuildFlashFirmwareResult.construct s m e f).errorType = e ∧
    (BuildFlashFirmwareResult.construct s m e f).firmwareBinPath = f :=
  ⟨rfl, rfl, rfl, rfl⟩

/-- C9: the claim that `prependPATH` always returns a non-empty string is
false: with an empty item and an empty existing PATH the result is the empty
string. -/
theorem c9_counterexample : prependPATH ";" "" "" = "" := rfl

/-- C9 (amended): with an empty existing PATH, `prependPATH` returns the item
alone with no separator; for every input the result begins with the item; and
the result is non-empty whenever the item is non-empty. -/
theorem c9_result_starts_with_item (delim pth item : String) :
    prependPATH delim "" item = item ∧
    (∃ rest, prependPATH delim pth item = item ++ rest) ∧
    (item ≠ "" → prependPATH delim pth item ≠ "") := by
  have hex : ∃ rest, prependPATH delim pth item = item ++ rest := by
    unfold prependPATH
    split
    · exact ⟨delim ++ pth, by rw [String.append_assoc]⟩
    · exact ⟨"", (String.append_empty item).symm⟩
  refine ⟨rfl, hex, fun hi => ?_⟩
  obtain ⟨rest, hr⟩ := hex
  rw [hr]
  exact append_ne_empty_left item rest hi

theorem c9_witness :
    prependPATH ";" "" "/opt/python" = "/opt/python" ∧
    prependPATH ";" "/usr/bin" "/opt/python" ≠ "" :=
  ⟨(c9_result_starts_with_item ";" "/usr/bin" "/opt/python").1,
   (c9_result_starts_with_item ";" "/usr/bin" "/opt/python").2.2 (by decide)⟩

/-- C4: the claim that every error reaching the process-level handlers leaves
the process running is false: `handleFatalError`, invoked by both the
`uncaughtException` and the `unhandledRejection` handler, exits the process
even when the error dialog resolves normally. -/
theorem c4_counterexample :
    handleFatalError DialogOutcome.resolved = ProcessStatus.exited 1 ∧
    handleFatalError DialogOutcome.resolved ≠ ProcessStatus.running := by
  decide

/-- C4 (amended): every error reaching the process-level handlers terminates
the process with exit status 1, whatever the error dialog does; the process
survives a job failure only if the failure is reported as a structured result
before reaching these handlers. -/
theorem c4_handler_always_exits (d : DialogOutcome) :
    handleFatalError d = ProcessStatus.exited 1 := by
  cases d <;> rfl

/-- C3: on a platform that is neither Windows nor macOS, resolution never
fails and the resolved PATH equals the inherited process PATH unmodified. -/
theorem c3_unknown_platform_inherits_PATH (platform deps p : String)
    (env : ProcessEnv) (hW : isWindows platform = false)
    (hM : isMacOS platform = false) (hPATH : env "PATH" = some p) :
    resolvePATH platform deps env = p := by
  simp [resolvePATH, hW, hM, hPATH]

theorem c3_witness :
    resolvePATH "linux" "/deps" (envWithPATH "/usr/bin") = "/usr/bin" :=
  c3_unknown_platform_inherits_PATH "linux" "/deps" "/usr/bin"
    (envWithPATH "/usr/bin") (by decide) (by decide) rfl

/-- C7: environment resolution is deterministic and reads only the PATH
variable of the inherited environment: two environments agreeing on PATH give
identical resolved PATH strings for the same platform and dependencies root. -/
theorem c7_deterministic_reads_only_PATH (platform deps : String)
    (env1 env2 : ProcessEnv) (h : env1 "PATH" = env2 "PATH") :
    resolvePATH platform deps env1 = resolvePATH platform deps env2 := by
  simp [resolvePATH, h]

theorem c7_witness :
    resolvePATH "linux" "/deps" (envWithPATH "/usr/bin") =
      resolvePATH "linux" "/deps" envBusy :=
  c7_deterministic_reads_only_PATH "linux" "/deps"
    (envWithPATH "/usr/bin") envBusy rfl

/-- C2: the claim that the portable Python location precedes the portable Git
location in the composed PATH is false: on Windows with dependencies root
`C:\deps` and inherited PATH `C:\sys`, the result lists the Git location
first, then the Python location, then the inherited PATH, which differs from
the Python-first string the claim requires. -/
theorem c2_counterexample :
    resolvePATH "win32" "C:\\deps" (envWithPATH "C:\\sys") =
      winGitLocation "C:\\deps" ++ ";" ++ winPythonLocation "C:\\deps" ++
        ";" ++ "C:\\sys" ∧
    winGitLocation "C:\\deps" ++ ";" ++ winPythonLocation "C:\\deps" ++
        ";" ++ "C:\\sys" ≠
      winPythonLocation "C:\\deps" ++ ";" ++ winGitLocation "C:\\deps" ++
        ";" ++ "C:\\sys" := by
  constructor
  · rfl
  · decide

/-- C2 (amended): on every recognized platform the portable toolchain
directories precede the whole inherited PATH, but in reverse of their listing
order: the portable Git location comes first, then the portable Python
location (the last-prepended directory ends up first), then the inherited
PATH. -/
theorem c2_portable_first_git_before_python (platform deps p : String)
    (env : ProcessEnv) (hPATH : env "PATH" = some p) (hp : p ≠ "") :
    (isWindows platform = true →
      resolvePATH platform deps env =
        winGitLocation deps ++ pathDelimiter platform ++
          winPythonLocation deps ++ pathDelimiter platform ++ p) ∧
    (isMacOS platform = true →
      resolvePATH platform deps env =
        macGitLocation deps ++ pathDelimiter platform ++
          macPythonLocation deps ++ pathDelimiter platform ++ p) := by
  constructor
  · intro hW
    have hM := isMacOS_eq_false_of_isWindows platform hW
    simp only [resolvePATH, hPATH, Option.getD_some, hW, hM, if_true,
      Bool.false_eq_true, if_false]
    rw [prependPATH_of_ne_empty _ _ _ hp,
      prependPATH_of_ne_empty _ _ _
        (append_ne_empty_left _ _
          (append_ne_empty_left _ _ (winPythonLocation_ne_empty deps)))]
    simp [String.append_assoc]
  · intro hM
    have hW := isWindows_eq_false_of_isMacOS platform hM
    simp only [resolvePATH, hPATH, Option.getD_some, hW, hM, if_true,
      Bool.false_eq_true, if_false]
    rw [prependPATH_of_ne_empty _ _ _ hp,
      prependPATH_of_ne_empty _ _ _
        (append_ne_empty_left _ _
          (append_ne_empty_left _ _ (macPythonLocation_ne_empty deps)))]
    simp [String.append_assoc]

theorem c2_witness :
    resolvePATH "win32" "C:\\deps" (envWithPATH "C:\\sys") =
      winGitLocation "C:\\deps" ++ pathDelimiter "win32" ++
        winPythonLocation "C:\\deps" ++ pathDelimiter "win32" ++ "C:\\sys" ∧
    resolvePATH "darwin" "/deps" (envWithPATH "/usr/bin") =
      macGitLocation "/deps" ++ pathDelimiter "darwin" ++
        macPythonLocation "/deps" ++ pathDelimiter "darwin" ++ "/usr/bin" :=
  ⟨(c2_portable_first_git_before_python "win32" "C:\\deps" "C:\\sys"
      (envWithPATH "C:\\sys") rfl (by decide)).1 (by decide),
   (c2_portable_first_git_before_python "darwin" "/deps" "/usr/bin"
      (envWithPATH "/usr/bin") rfl (by decide)).2 (by decide)⟩

/-- C10: with no PATH variable in the inherited environment, resolution still
succeeds, treating the inherited PATH as the empty string: on an unrecognized
platform the result is empty, and on a recognized platform it consists solely
of the two portable toolchain directories. -/
theorem c10_missing_PATH_treated_as_empty (platform deps : String)
    (env : ProcessEnv) (hPATH : env "PATH" = none) :
    (isWindows platform = false → isMacOS platform = false →
      resolvePATH platform deps env = "") ∧
    (isWindows platform = true →
      resolvePATH platform deps env =
        winGitLocation deps ++ pathDelimiter platform ++ winPythonLocation deps) ∧
    (isMacOS platform = true →
      resolvePATH platform deps env =
        macGitLocation deps ++ pathDelimiter platform ++ macPythonLocation deps) := by
  refine ⟨fun hW hM => ?_, fun hW => ?_, fun hM => ?_⟩
  · simp [resolvePATH, hPATH, hW, hM]
  · have hM := isMacOS_eq_false_of_isWindows platform hW
    simp only [resolvePATH, hPATH, Option.getD_none, hW, hM, if_true,
      Bool.false_eq_true, if_false]
    rw [prependPATH_empty,
      prependPATH_of_ne_empty _ _ _ (winPythonLocation_ne_empty deps)]
  · have hW := isWindows_eq_false_of_isMacOS platform hM
    simp only [resolvePATH, hPATH, Option.getD_none, hW, hM, if_true,
      Bool.false_eq_true, if_false]
    rw [prependPATH_empty,
      prependPATH_of_ne_empty _ _ _ (macPythonLocation_ne_empty deps)]

theorem c10_witness :
    resolvePATH "linux" "/deps" envNoPATH = "" ∧
    resolvePATH "win32" "C:\\deps" envNoPATH =
      winGitLocation "C:\\deps" ++ pathDelimiter "win32" ++
        winPythonLocation "C:\\deps" :=
  ⟨(c10_missing_PATH_treated_as_empty "linux" "/deps" envNoPATH rfl).1
      (by decide) (by decide),
   (c10_missing_PATH_treated_as_empty "win32" "C:\\deps" envNoPATH rfl).2.1
      (by decide)⟩
